import Mathlib

/-!
Verification development for the QtPyVCP status-synchronization engine
(`QtPyVCP/utilities/status.py`) and the axis-letter helpers
(`QtPyVCP/actions/machine_actions.py`).

The Python code polls a `linuxcnc.stat` snapshot on a timer, diffs it
field-by-field against a retained `old` dictionary, and emits a Qt signal for
every changed field; a `_Joint` helper does the same for the per-joint
sub-records, and an `_Error` helper drains one entry per cycle from the
error channel.  Here the relevant routines are embedded shallowly: Python
dictionaries become association lists, Qt signal emissions become elements of
an explicit event list, float values become rationals, and code paths that
raise a Python exception become `none`.
-/

/-- A Python value stored in the status `old` dictionary: the monitored
`linuxcnc.stat` attributes are ints, bools, floats, strings and flat tuples
of numbers.  Python `!=` on these is structural, as is equality here. -/
inductive Value where
  | int (i : Int)
  | bool (b : Bool)
  | num (q : ℚ)
  | str (s : String)
  | tup (vs : List ℚ)
deriving DecidableEq, Repr

/-- One per-joint status dictionary (`stat.joint[n]`): a fixed mapping from
attribute name to value, embedded as an association list in fixed key order. -/
abbrev JointRec : Type := List (String × Value)

/-- A change notification emitted by the status engine: either a top-level
field signal `getattr(self, key).emit(new_value)` or a per-joint signal
`getattr(self, item[0]).emit(jnum, item[1])`. -/
inductive Event where
  | field (name : String) (value : Value)
  | jointField (jnum : Nat) (attr : String) (value : Value)
deriving DecidableEq, Repr

/-- The state retained by `_Status` between cycles: the `old` baseline
dictionary, the joint count and joint baseline held by the `_Joint` helper,
and whether the periodic timer is running. -/
structure StatState where
  old : List (String × Value)
  numJoints : Nat
  jointOld : List JointRec
  timerRunning : Bool
deriving DecidableEq

/-- One successfully polled snapshot: the top-level attribute values of
`linuxcnc.stat` plus the `stat.joint` collection. -/
structure Snapshot where
  fields : String → Value
  joints : List JointRec

/-- The exclusion list from `_Status.__init__`: attributes never diffed at
top level. -/
def excluded_items : List String :=
  ["axes", "axis", "joint", "cycle_time", "linear_units",
   "angular_units", "acceleration", "max_velocity", "kinematics_type",
   "joints", "settings", "axis_mask", "max_acceleration", "echo_serial_number",
   "id", "poll", "command", "debug"]

/-- The `old` dictionary built in `_Status.__init__`: every attribute of the
status object that does not start with an underscore and is not excluded,
with its initial value. -/
def initOld (attrs : List String) (stat : String → Value) :
    List (String × Value) :=
  ((attrs.filter (fun a => ¬ a.startsWith "_" ∧ a ∉ excluded_items)).map
    (fun a => (a, stat a)))

/-- The top-level diff loop of `_Status._periodic`: for each `(key, old_value)`
entry of `old`, read `new_value = getattr(stat, key)`; if they differ, store
the new value back into `old` and emit the field's signal.  Returns the
updated `old` dictionary and the emitted events, in iteration order. -/
def statusDiff : List (String × Value) → (String → Value) →
    List (String × Value) × List Event
  | [], _ => ([], [])
  | kv :: rest, stat =>
    let new_value := stat kv.1
    let r := statusDiff rest stat
    if kv.2 ≠ new_value then
      ((kv.1, new_value) :: r.1, Event.field kv.1 new_value :: r.2)
    else
      (kv :: r.1, r.2)

/-- `_Status.forceUpdate`: emit every entry of the `old` dictionary as-is,
without polling and without touching any state. -/
def forceUpdate (s : StatState) : StatState × List Event :=
  (s, s.old.map (fun kv => Event.field kv.1 kv.2))

/-- `changed_items` of `_Joint._periodic`:
`set(new[jnum].items()) - set(old[jnum].items())`, each emitted with the
joint number.  The set difference is represented in `new`'s key order. -/
def jointChanges (jnum : Nat) (oldJ newJ : JointRec) : List Event :=
  (newJ.filter (fun kv => kv ∉ oldJ)).map
    (fun kv => Event.jointField jnum kv.1 kv.2)

/-- The loop body of `_Joint._periodic` over a list of joint indices:
`new[jnum]` and `old[jnum]` raise `IndexError` when out of range (`none`);
otherwise the changed items of every joint whose record differs are emitted. -/
def jointLoop (old new : List JointRec) : List Nat → Option (List Event)
  | [] => some []
  | jnum :: rest =>
    match new.get? jnum, old.get? jnum with
    | some nj, some oj =>
      let evs := if nj ≠ oj then jointChanges jnum oj nj else []
      (jointLoop old new rest).map (fun r => evs ++ r)
    | _, _ => none

/-- The joint-side retained state: `num_joints` is captured once in
`_Joint.__init__` from `stat.joints`; `old` is the previous `stat.joint`
collection. -/
structure JointState where
  numJoints : Nat
  old : List JointRec
deriving DecidableEq

/-- `_Joint._periodic`: iterate `jnum in range(self.num_joints)` over the new
and old joint collections, emitting the changed items per joint; `none` when
an index is out of range of either collection (`IndexError`).  On success the
baseline becomes the new collection. -/
def jointPeriodic (js : JointState) (newJoints : List JointRec) :
    Option (JointState × List Event) :=
  (jointLoop js.old newJoints (List.range js.numJoints)).map
    (fun evs => ({ js with old := newJoints }, evs))

/-! ### The error channel (`_Error._periodic`) -/

/-- `linuxcnc.NML_ERROR` (value from the linuxcnc Python module). -/
def NML_ERROR : Int := 1
/-- `linuxcnc.NML_TEXT` (value from the linuxcnc Python module). -/
def NML_TEXT : Int := 2
/-- `linuxcnc.NML_DISPLAY` (value from the linuxcnc Python module). -/
def NML_DISPLAY : Int := 3
/-- `linuxcnc.OPERATOR_ERROR` (value from the linuxcnc Python module). -/
def OPERATOR_ERROR : Int := 11
/-- `linuxcnc.OPERATOR_TEXT` (value from the linuxcnc Python module). -/
def OPERATOR_TEXT : Int := 12
/-- `linuxcnc.OPERATOR_DISPLAY` (value from the linuxcnc Python module). -/
def OPERATOR_DISPLAY : Int := 13

/-- An observable action of `_Error._periodic`: an emission on the
`new_error` or `new_message` signal, or a log call. -/
inductive ErrEvent where
  | newError (msg : String)
  | newMessage (msg : String)
  | logError (msg : String)
  | logInfo (msg : String)
deriving DecidableEq, Repr

/-- `_Error._periodic`: drain one `(kind, msg)` entry (or nothing) from the
error channel; replace an empty or missing message with "Unknown error!";
classify by `kind` into error emissions, message emissions, or a bare log. -/
def errorPeriodic (entry : Option (Int × Option String)) : List ErrEvent :=
  match entry with
  | none => []
  | some (kind, rawMsg) =>
    let msg := if rawMsg = some "" ∨ rawMsg = none then "Unknown error!"
               else rawMsg.getD "Unknown error!"
    if kind = NML_ERROR ∨ kind = OPERATOR_ERROR then
      [ErrEvent.newError msg, ErrEvent.logError msg]
    else if kind = NML_TEXT ∨ kind = OPERATOR_TEXT ∨
            kind = NML_DISPLAY ∨ kind = OPERATOR_DISPLAY then
      [ErrEvent.newMessage msg, ErrEvent.logInfo msg]
    else
      [ErrEvent.logError msg]

/-- `_Status._periodic`, one full cycle: if the poll raises, log, stop the
timer and return — emitting nothing and leaving every baseline untouched.
Otherwise run the top-level field diff, then the joint diff (whose
`IndexError` propagates as `none`), then drain the error channel. -/
def statusPeriodic (s : StatState) (poll : Option Snapshot)
    (errEntry : Option (Int × Option String)) :
    Option (StatState × List Event × List ErrEvent) :=
  match poll with
  | none => some ({ s with timerRunning := false }, [], [])
  | some snap =>
    let d := statusDiff s.old snap.fields
    match jointPeriodic ⟨s.numJoints, s.jointOld⟩ snap.joints with
    | none => none
    | some (js, jevs) =>
      some ({ s with old := d.1, jointOld := js.old },
            d.2 ++ jevs, errorPeriodic errEntry)

/-! ### Derived axis positions (`_Status.updateAxisPositions`) -/

/-- The inputs read by `_Status.updateAxisPositions`: the selected raw
position tuple, the distance-to-go tuple, the three offset tuples, the XY
rotation angle and `INFO.AXIS_NUMBER_LIST`.  The 9-item tuples are embedded
as functions on `Fin 9`, floats as rationals. -/
structure AxisPosInputs where
  pos : Fin 9 → ℚ
  dtg : Fin 9 → ℚ
  g5x_offset : Fin 9 → ℚ
  g92_offset : Fin 9 → ℚ
  tool_offset : Fin 9 → ℚ
  rotation_xy : ℚ
  axis_number_list : List (Fin 9)

/-- `_Status.updateAxisPositions`: build `rel = [0]*9`, set
`rel[axis] = pos[axis] - g5x_offset[axis] - tool_offset[axis]` for each axis
in the list, then, if `rotation_xy != 0`, the source evaluates
`math.radians(-stat.rotation_xy)` — but the module never imports `math` and
has no name `stat` in scope, so this branch raises `NameError` (`none`).
Otherwise `rel[axis] -= g92_offset[axis]` per axis and the
`(pos, rel, dtg)` triple is emitted. -/
def updateAxisPositions (s : AxisPosInputs) :
    Option ((Fin 9 → ℚ) × (Fin 9 → ℚ) × (Fin 9 → ℚ)) :=
  let rel : Fin 9 → ℚ :=
    s.axis_number_list.foldl
      (fun rel axis =>
        Function.update rel axis
          (s.pos axis - s.g5x_offset axis - s.tool_offset axis))
      (fun _ => 0)
  if s.rotation_xy ≠ 0 then
    none
  else
    let rel2 : Fin 9 → ℚ :=
      s.axis_number_list.foldl
        (fun rel axis => Function.update rel axis (rel axis - s.g92_offset axis))
        rel
    some (s.pos, rel2, s.dtg)

/-! ### G-code formatting (`_Status.updateFormatedGcodes`) -/

/-- The loop body of `updateFormatedGcodes` for one code: Python 2 `/` on
ints is floor division (`Int.fdiv`) and `%` follows the divisor's sign
(`Int.emod`), so value 10 renders as "G1" and value 11 as "G1.1". -/
def gcodeFormat (gcode : Int) : String :=
  if gcode.emod 10 = 0 then
    "G" ++ toString (gcode.fdiv 10)
  else
    "G" ++ toString (gcode.fdiv 10) ++ "." ++ toString (gcode.emod 10)

/-- `_Status.updateFormatedGcodes`: iterate over `sorted(gcodes[1:])`,
skip the sentinel -1, and append the formatted string for every other code. -/
def updateFormatedGcodes (gcodes : List Int) : List String :=
  ((gcodes.drop 1).insertionSort (· ≤ ·)).foldl
    (fun acc gcode => if gcode = -1 then acc else acc ++ [gcodeFormat gcode])
    []

/-! ### Position-source mode switching (`_Status.setReportActualPosition`) -/

/-- Which update slots the position signals are connected to.  In
`_Status.__init__` the commanded signals `position` and `joint_position` are
connected to `updateAxisPositions` / `updateJointPositions`;
`setReportActualPosition` swaps those connections to the actual-position
signals and back.  `posConn` / `actConn` record whether `position` /
`actual_position` is connected to the axis-position update, and `jposConn` /
`jactConn` the same for the joint-position update. -/
structure ConnState where
  report_actual_position : Bool
  posConn : Bool
  actConn : Bool
  jposConn : Bool
  jactConn : Bool
deriving DecidableEq, Repr

/-- The connections made in `_Status.__init__`: commanded position signals
connected, actual ones not, `_report_actual_position = False`. -/
def initConnState : ConnState :=
  { report_actual_position := false
    posConn := true
    actConn := false
    jposConn := true
    jactConn := false }

/-- `_Status.setReportActualPosition`: when the requested mode differs from
the current one, disconnect both triggers of the old mode and connect both
triggers of the new mode; otherwise do nothing. -/
def setReportActualPosition (s : ConnState) (report_actual : Bool) : ConnState :=
  if report_actual ≠ s.report_actual_position then
    if report_actual then
      { report_actual_position := report_actual
        posConn := false
        jposConn := false
        actConn := true
        jactConn := true }
    else
      { report_actual_position := report_actual
        actConn := false
        jactConn := false
        posConn := true
        jposConn := true }
  else
    s

/-! ### Axis letter helpers (`actions/machine_actions.py`) -/

/-- The lookup list shared by `getAxisLetter` and `getAxisNumber`. -/
def axisLetterList : List String :=
  ["x", "y", "z", "a", "b", "c", "u", "v", "w", "all"]

/-- Python list indexing `l[i]`: nonnegative indices from the front,
negative indices from the back, `IndexError` (`none`) out of range. -/
def pyIndex (l : List String) (i : Int) : Option String :=
  if 0 ≤ i then l.get? i.toNat
  else if (-i).toNat ≤ l.length then l.get? (l.length - (-i).toNat)
  else none

/-- `getAxisLetter` on an int argument:
`['x','y','z','a','b','c','u','v','w','all'][axis]`. -/
def getAxisLetter (axis : Int) : Option String :=
  pyIndex axisLetterList axis

/-- Python `str.lower()` on one character (ASCII range, which covers the
axis letters). -/
def lowerChar (c : Char) : Char :=
  if 'A' ≤ c ∧ c ≤ 'Z' then Char.ofNat (c.toNat + 32) else c

/-- Python `str.lower()`. -/
def pyLower (s : String) : String := ⟨s.data.map lowerChar⟩

/-- `getAxisNumber` on a string argument:
`['x','y','z','a','b','c','u','v','w','all'].index(axis.lower())`,
`ValueError` (`none`) when the letter is unknown. -/
def getAxisNumber (axis : String) : Option Int :=
  (axisLetterList.indexOf? (pyLower axis)).map (fun n => (n : Int))

/-- The message text carried by an `_Error` observable action. -/
def errEventMsg : ErrEvent → String
  | ErrEvent.newError msg => msg
  | ErrEvent.newMessage msg => msg
  | ErrEvent.logError msg => msg
  | ErrEvent.logInfo msg => msg


/-! ## Helper lemmas -/

theorem statusDiff_fst (old : List (String × Value)) (stat : String → Value) :
    (statusDiff old stat).1 = old.map (fun kv => (kv.1, stat kv.1)) := by
  induction old with
  | nil => rfl
  | cons kv rest ih =>
    by_cases h : kv.2 ≠ stat kv.1
    · simp [statusDiff, h, ih]
    · push_neg at h
      simp only [statusDiff, h, ne_eq, not_true_eq_false, if_false, ih, List.map_cons]
      rw [show (kv.1, stat kv.1) = kv from (@Prod.ext _ _ kv (kv.1, stat kv.1) rfl h).symm]

theorem statusDiff_snd (old : List (String × Value)) (stat : String → Value) :
    (statusDiff old stat).2
      = (old.filter (fun kv => kv.2 ≠ stat kv.1)).map
          (fun kv => Event.field kv.1 (stat kv.1)) := by
  induction old with
  | nil => rfl
  | cons kv rest ih =>
    by_cases h : kv.2 ≠ stat kv.1
    · simp [statusDiff, h, ih]
    · push_neg at h
      simp [statusDiff, h, ih]

theorem statusDiff_self_empty (attrs : List String) (stat : String → Value) :
    (statusDiff (initOld attrs stat) stat).2 = [] := by
  simp [initOld, statusDiff_snd, List.filter_map]

theorem foldl_skip_append (f : Int → String) (l : List Int) :
    ∀ acc : List String,
      l.foldl (fun acc gcode => if gcode = -1 then acc else acc ++ [f gcode]) acc
        = acc ++ (l.filter (fun g => g ≠ -1)).map f := by
  induction l with
  | nil => simp
  | cons g rest ih =>
    intro acc
    by_cases h : g = -1
    · simp [h, ih]
    · simp [h, ih]

theorem connStep_invariant (s : ConnState) (b : Bool)
    (h : s.posConn = s.jposConn ∧ s.actConn = s.jactConn ∧ s.posConn = !s.actConn) :
    (setReportActualPosition s b).posConn = (setReportActualPosition s b).jposConn
    ∧ (setReportActualPosition s b).actConn = (setReportActualPosition s b).jactConn
    ∧ (setReportActualPosition s b).posConn = !(setReportActualPosition s b).actConn := by
  unfold setReportActualPosition
  by_cases hb : b ≠ s.report_actual_position
  · cases b <;> simp [hb]
  · simp [hb]
    exact h

theorem connFoldl_invariant (calls : List Bool) :
    ∀ s : ConnState,
      (s.posConn = s.jposConn ∧ s.actConn = s.jactConn ∧ s.posConn = !s.actConn) →
      ((calls.foldl setReportActualPosition s).posConn
          = (calls.foldl setReportActualPosition s).jposConn
        ∧ (calls.foldl setReportActualPosition s).actConn
          = (calls.foldl setReportActualPosition s).jactConn
        ∧ (calls.foldl setReportActualPosition s).posConn
          = !(calls.foldl setReportActualPosition s).actConn) := by
  induction calls with
  | nil => intro s h; exact h
  | cons b rest ih =>
    intro s h
    exact ih _ (connStep_invariant s b h)

/-! ## Claim theorems -/

/-- C1: one poll-diff-dispatch cycle over the monitored field set emits a
change event for a field exactly when its new value differs (structurally)
from the retained previous value, updates the retained baseline to the new
snapshot, and emits nothing at all when the snapshot is unchanged (in
particular on the baseline built by `__init__` from the same snapshot). -/
theorem statusDiff_change_iff (old : List (String × Value)) (stat : String → Value)
    (attrs : List String) :
    (statusDiff old stat).1 = old.map (fun kv => (kv.1, stat kv.1))
    ∧ (statusDiff old stat).2
        = (old.filter (fun kv => kv.2 ≠ stat kv.1)).map
            (fun kv => Event.field kv.1 (stat kv.1))
    ∧ (statusDiff (initOld attrs stat) stat).2 = [] :=
  ⟨statusDiff_fst old stat, statusDiff_snd old stat, statusDiff_self_empty attrs stat⟩

/-- C2: a cycle whose snapshot poll raises emits no change events, leaves
the retained baselines (top-level and joint) untouched, performs no joint
diff and no error-channel drain, and stops the periodic timer. -/
theorem statusPeriodic_poll_failure (s : StatState)
    (errEntry : Option (Int × Option String)) :
    statusPeriodic s none errEntry
      = some ({ s with timerRunning := false }, [], []) := rfl

/-- C8: `forceUpdate` republishes every retained field value regardless of
change, does not modify any state, and two consecutive calls with no
intervening poll produce identical event sequences. -/
theorem forceUpdate_idempotent (s : StatState) :
    (forceUpdate ((forceUpdate s).1)).2 = (forceUpdate s).2
    ∧ (forceUpdate s).1 = s
    ∧ (forceUpdate s).2 = s.old.map (fun kv => Event.field kv.1 kv.2)
    ∧ ∀ kv ∈ s.old, Event.field kv.1 kv.2 ∈ (forceUpdate s).2 := by
  refine ⟨rfl, rfl, rfl, ?_⟩
  intro kv hkv
  exact List.mem_map.mpr ⟨kv, hkv, rfl⟩

/-- C8 witness: `forceUpdate` on a concrete one-field state republishes the
retained value. -/
theorem forceUpdate_idempotent_witness :
    ("estop", Value.int 0) ∈ (StatState.mk [("estop", Value.int 0)] 0 [] true).old
    ∧ Event.field "estop" (Value.int 0)
        ∈ (forceUpdate (StatState.mk [("estop", Value.int 0)] 0 [] true)).2 :=
  ⟨by decide,
   (forceUpdate_idempotent (StatState.mk [("estop", Value.int 0)] 0 [] true)).2.2.2
     ("estop", Value.int 0) (by decide)⟩

/-- C9: after any sequence of `setReportActualPosition` calls starting from
the connections made in `__init__`, the axis-position trigger and the
joint-position trigger are connected to the same source — both commanded or
both actual, never one of each. -/
theorem setReportActualPosition_atomic (calls : List Bool) :
    ((calls.foldl setReportActualPosition initConnState).posConn
        = (calls.foldl setReportActualPosition initConnState).jposConn)
    ∧ ((calls.foldl setReportActualPosition initConnState).actConn
        = (calls.foldl setReportActualPosition initConnState).jactConn)
    ∧ ((calls.foldl setReportActualPosition initConnState).posConn
        = !(calls.foldl setReportActualPosition initConnState).actConn) :=
  connFoldl_invariant calls initConnState ⟨rfl, rfl, rfl⟩

/-- C10: for axis numbers 0..8 converting to the axis letter and back is the
identity; -1 converts to the letter "all", but "all" converts back to 9,
not -1, so the round trip fails at the sentinel. -/
theorem getAxisLetter_number_round_trip :
    (∀ n : Fin 9,
      (getAxisLetter ((n : Nat) : Int)).bind getAxisNumber = some ((n : Nat) : Int))
    ∧ getAxisLetter (-1) = some "all"
    ∧ getAxisNumber "all" = some 9 := by decide

/-- C5: the formatted G-code list renders `sorted(gcodes[1:])` minus the -1
sentinels through `gcodeFormat` (whole part and tenths of the code value),
the underlying codes appearing in ascending numeric order; on the raw codes
[_, 10, 11, -1, 20] this gives ["G1", "G1.1", "G2"]. -/
theorem updateFormatedGcodes_ascending :
    (∀ gcodes : List Int,
      updateFormatedGcodes gcodes
        = (((gcodes.drop 1).insertionSort (· ≤ ·)).filter
            (fun g => g ≠ -1)).map gcodeFormat
      ∧ List.Sorted (· ≤ ·)
          (((gcodes.drop 1).insertionSort (· ≤ ·)).filter (fun g => g ≠ -1)))
    ∧ updateFormatedGcodes [7, 10, 11, -1, 20] = ["G1", "G1.1", "G2"] := by
  refine ⟨fun gcodes => ⟨?_, ?_⟩, by decide⟩
  · simpa [updateFormatedGcodes] using
      foldl_skip_append gcodeFormat ((gcodes.drop 1).insertionSort (· ≤ ·)) []
  · exact (List.sorted_insertionSort (· ≤ ·) (gcodes.drop 1)).filter _

theorem errorPeriodic_eq (kind : Int) (rawMsg : Option String) :
    errorPeriodic (some (kind, rawMsg))
      = (if kind = NML_ERROR ∨ kind = OPERATOR_ERROR then
          [ErrEvent.newError (if rawMsg = some "" ∨ rawMsg = none then "Unknown error!"
             else rawMsg.getD "Unknown error!"),
           ErrEvent.logError (if rawMsg = some "" ∨ rawMsg = none then "Unknown error!"
             else rawMsg.getD "Unknown error!")]
         else if kind = NML_TEXT ∨ kind = OPERATOR_TEXT ∨
                 kind = NML_DISPLAY ∨ kind = OPERATOR_DISPLAY then
          [ErrEvent.newMessage (if rawMsg = some "" ∨ rawMsg = none then "Unknown error!"
             else rawMsg.getD "Unknown error!"),
           ErrEvent.logInfo (if rawMsg = some "" ∨ rawMsg = none then "Unknown error!"
             else rawMsg.getD "Unknown error!")]
         else
          [ErrEvent.logError (if rawMsg = some "" ∨ rawMsg = none then "Unknown error!"
             else rawMsg.getD "Unknown error!")]) := rfl

/-- C6: a drained entry with empty or missing text is published with the
placeholder "Unknown error!"; an operator-error entry with empty text is
published on the error (Error-severity) signal with that placeholder. -/
theorem errorPeriodic_empty_text (kind : Int) (rawMsg : Option String)
    (h : rawMsg = some "" ∨ rawMsg = none) :
    (∀ ev ∈ errorPeriodic (some (kind, rawMsg)), errEventMsg ev = "Unknown error!")
    ∧ errorPeriodic (some (OPERATOR_ERROR, rawMsg))
        = [ErrEvent.newError "Unknown error!", ErrEvent.logError "Unknown error!"] := by
  constructor
  · intro ev hev
    rw [errorPeriodic_eq, if_pos h] at hev
    split at hev
    · simp only [List.mem_cons, List.not_mem_nil, or_false] at hev
      rcases hev with rfl | rfl <;> rfl
    · split at hev
      · simp only [List.mem_cons, List.not_mem_nil, or_false] at hev
        rcases hev with rfl | rfl <;> rfl
      · simp only [List.mem_cons, List.not_mem_nil, or_false] at hev
        subst hev
        rfl
  · rw [errorPeriodic_eq, if_pos h,
        if_pos (show OPERATOR_ERROR = NML_ERROR ∨ OPERATOR_ERROR = OPERATOR_ERROR from
          Or.inr rfl)]

/-- C6 witness: the operator-error entry with empty text at a concrete
input. -/
theorem errorPeriodic_empty_text_witness :
    ((some "" : Option String) = some "" ∨ (some "" : Option String) = none)
    ∧ errorPeriodic (some (OPERATOR_ERROR, some ""))
        = [ErrEvent.newError "Unknown error!", ErrEvent.logError "Unknown error!"] :=
  ⟨Or.inl rfl, (errorPeriodic_empty_text OPERATOR_ERROR (some "") (Or.inl rfl)).2⟩

/-- C7 counterexample: an entry of an unknown class (kind 42) is only
logged; no Error-severity event is published for it, contrary to the claim
that it is "logged and also published as an Error-severity event". -/
theorem errorPeriodic_unknown_not_published :
    errorPeriodic (some (42, some "boom")) = [ErrEvent.logError "boom"]
    ∧ ErrEvent.newError "boom" ∉ errorPeriodic (some (42, some "boom")) := by
  constructor
  · decide
  · decide

/-- C7 (amended): hard-error and operator-error entries are published on the
error signal (and logged as errors); text/display entries are published on
the message signal (and logged as info); an entry of any other class is only
logged as an error, with no published event. -/
theorem errorPeriodic_classification (kind : Int) (msg : String) (hm : msg ≠ "") :
    (kind = NML_ERROR ∨ kind = OPERATOR_ERROR →
      errorPeriodic (some (kind, some msg))
        = [ErrEvent.newError msg, ErrEvent.logError msg])
    ∧ (kind = NML_TEXT ∨ kind = OPERATOR_TEXT ∨
        kind = NML_DISPLAY ∨ kind = OPERATOR_DISPLAY →
      errorPeriodic (some (kind, some msg))
        = [ErrEvent.newMessage msg, ErrEvent.logInfo msg])
    ∧ (¬(kind = NML_ERROR ∨ kind = OPERATOR_ERROR) →
      ¬(kind = NML_TEXT ∨ kind = OPERATOR_TEXT ∨
        kind = NML_DISPLAY ∨ kind = OPERATOR_DISPLAY) →
      errorPeriodic (some (kind, some msg)) = [ErrEvent.logError msg]) := by
  have hne : ¬((some msg : Option String) = some "" ∨ (some msg : Option String) = none) := by
    simp [hm]
  refine ⟨fun h1 => ?_, fun h2 => ?_, fun h1 h2 => ?_⟩
  · rw [errorPeriodic_eq, if_neg hne, if_pos h1]
    rfl
  · have h1 : ¬(kind = NML_ERROR ∨ kind = OPERATOR_ERROR) := by
      rcases h2 with h | h | h | h <;> subst h <;> decide
    rw [errorPeriodic_eq, if_neg hne, if_neg h1, if_pos h2]
    rfl
  · rw [errorPeriodic_eq, if_neg hne, if_neg h1, if_neg h2]
    rfl

/-- C7 witness for the amended claim: a concrete unknown-class entry is only
logged. -/
theorem errorPeriodic_classification_witness :
    ("oops" : String) ≠ ""
    ∧ ¬((100 : Int) = NML_ERROR ∨ (100 : Int) = OPERATOR_ERROR)
    ∧ ¬((100 : Int) = NML_TEXT ∨ (100 : Int) = OPERATOR_TEXT ∨
        (100 : Int) = NML_DISPLAY ∨ (100 : Int) = OPERATOR_DISPLAY)
    ∧ errorPeriodic (some (100, some "oops")) = [ErrEvent.logError "oops"] :=
  ⟨by decide, by decide, by decide,
   (errorPeriodic_classification 100 "oops" (by decide)).2.2 (by decide) (by decide)⟩

theorem jointLoop_none_of_short (old new : List JointRec) (idx : List Nat) (j : Nat)
    (hj : j ∈ idx) (hnone : new.get? j = none) :
    jointLoop old new idx = none := by
  induction idx with
  | nil => cases hj
  | cons k rest ih =>
    rcases List.mem_cons.mp hj with rfl | hmem
    · unfold jointLoop
      rw [hnone]
    · unfold jointLoop
      cases hnew : new.get? k
      · rfl
      · cases hold : old.get? k
        · rfl
        · rw [ih hmem]
          rfl

theorem jointChanges_jnum (jnum : Nat) (oldJ newJ : JointRec) (j : Nat)
    (attr : String) (v : Value)
    (hm : Event.jointField j attr v ∈ jointChanges jnum oldJ newJ) : j = jnum := by
  unfold jointChanges at hm
  rcases List.mem_map.mp hm with ⟨kv, hkv, heq⟩
  cases heq
  rfl

theorem jointLoop_some_of_bounds (old new : List JointRec) (idx : List Nat)
    (h : ∀ j ∈ idx, j < old.length ∧ j < new.length) :
    ∃ evs, jointLoop old new idx = some evs
      ∧ ∀ jnum attr v, Event.jointField jnum attr v ∈ evs → jnum ∈ idx := by
  induction idx with
  | nil => exact ⟨[], rfl, by simp⟩
  | cons k rest ih =>
    have hk := h k (List.mem_cons_self k rest)
    obtain ⟨evs, hevs, hbound⟩ := ih (fun j hj => h j (List.mem_cons_of_mem _ hj))
    have hnew : new.get? k = some (new.get ⟨k, hk.2⟩) := List.get?_eq_get hk.2
    have hold : old.get? k = some (old.get ⟨k, hk.1⟩) := List.get?_eq_get hk.1
    refine ⟨(if new.get ⟨k, hk.2⟩ ≠ old.get ⟨k, hk.1⟩ then
              jointChanges k (old.get ⟨k, hk.1⟩) (new.get ⟨k, hk.2⟩) else []) ++ evs,
            ?_, ?_⟩
    · unfold jointLoop
      rw [hnew, hold, hevs]
      rfl
    · intro jnum attr v hm
      rcases List.mem_append.mp hm with hm1 | hm2
      · by_cases hne : new.get ⟨k, hk.2⟩ ≠ old.get ⟨k, hk.1⟩
        · rw [if_pos hne] at hm1
          rw [jointChanges_jnum k _ _ jnum attr v hm1]
          exact List.mem_cons_self k rest
        · rw [if_neg hne] at hm1
          cases hm1
      · exact List.mem_cons_of_mem _ (hbound jnum attr v hm2)

/-- C3 counterexample: with the initial joint count 2 and the joint
collection shrunk to a single entry, the per-joint diff indexes past the
shorter collection and crashes (IndexError, `none`) instead of iterating
only over the minimum of the old and new counts. -/
theorem jointPeriodic_shrink_crash :
    jointPeriodic ⟨2, [[("homed", Value.bool false)], [("homed", Value.bool false)]]⟩
      [[("homed", Value.bool true)]] = none := by decide

/-- C3 (amended): the per-joint diff iterates over the fixed joint count
captured at initialization, not the minimum of the old and new counts: when
that count bounds both collections the diff succeeds, replaces the baseline
and emits changes only for joints below that count, but when the new
collection is shorter than that count the diff fails (IndexError). -/
theorem jointPeriodic_fixed_count (js : JointState) (newJoints : List JointRec) :
    (js.numJoints ≤ js.old.length → js.numJoints ≤ newJoints.length →
      ∃ evs, jointPeriodic js newJoints = some ({ js with old := newJoints }, evs)
        ∧ ∀ jnum attr v, Event.jointField jnum attr v ∈ evs → jnum < js.numJoints)
    ∧ (newJoints.length < js.numJoints → jointPeriodic js newJoints = none) := by
  constructor
  · intro h1 h2
    obtain ⟨evs, hevs, hb⟩ := jointLoop_some_of_bounds js.old newJoints
      (List.range js.numJoints)
      (fun j hj => ⟨lt_of_lt_of_le (List.mem_range.mp hj) h1,
                    lt_of_lt_of_le (List.mem_range.mp hj) h2⟩)
    refine ⟨evs, ?_, fun jnum attr v hm => List.mem_range.mp (hb jnum attr v hm)⟩
    unfold jointPeriodic
    rw [hevs]
    rfl
  · intro h
    have hnone : jointLoop js.old newJoints (List.range js.numJoints) = none :=
      jointLoop_none_of_short js.old newJoints (List.range js.numJoints)
        newJoints.length (List.mem_range.mpr h)
        (List.get?_eq_none.mpr (le_refl newJoints.length))
    unfold jointPeriodic
    rw [hnone]
    rfl

/-- C3 witness: a concrete one-joint diff within bounds succeeds and a
concrete shrink below the initial count fails. -/
theorem jointPeriodic_fixed_count_witness :
    ((JointState.mk 1 [[("homed", Value.bool false)]]).numJoints
        ≤ (JointState.mk 1 [[("homed", Value.bool false)]]).old.length)
    ∧ ((JointState.mk 1 [[("homed", Value.bool false)]]).numJoints
        ≤ ([[("homed", Value.bool true)]] : List JointRec).length)
    ∧ (∃ evs,
        jointPeriodic (JointState.mk 1 [[("homed", Value.bool false)]])
            [[("homed", Value.bool true)]]
          = some (JointState.mk 1 [[("homed", Value.bool true)]], evs)
        ∧ ∀ jnum attr v, Event.jointField jnum attr v ∈ evs →
            jnum < (JointState.mk 1 [[("homed", Value.bool false)]]).numJoints) :=
  ⟨by decide, by decide,
   (jointPeriodic_fixed_count (JointState.mk 1 [[("homed", Value.bool false)]])
      [[("homed", Value.bool true)]]).1 (by decide) (by decide)⟩

/-- C4 (the code at the failing input): with rotation_xy = 90 and a
pre-rotation relative vector (1, 0) the position update does not produce the
rotated vector the spec describes — the rotation branch raises NameError
(`math` is never imported and the name `stat` is undefined), so no event is
emitted at all; with rotation_xy = 0 the same inputs yield
relative = pos - g5x_offset - tool_offset - g92_offset per axis. -/
theorem updateAxisPositions_rotation_crash :
    updateAxisPositions
      { pos := fun a => if a = 0 then 5 else if a = 1 then 2 else 0
        dtg := fun _ => 0
        g5x_offset := fun a => if a = 0 then 4 else if a = 1 then 2 else 0
        g92_offset := fun _ => 1
        tool_offset := fun _ => 0
        rotation_xy := 90
        axis_number_list := [0, 1] } = none
    ∧ (updateAxisPositions
      { pos := fun a => if a = 0 then 5 else if a = 1 then 2 else 0
        dtg := fun _ => 0
        g5x_offset := fun a => if a = 0 then 4 else if a = 1 then 2 else 0
        g92_offset := fun _ => 1
        tool_offset := fun _ => 0
        rotation_xy := 0
        axis_number_list := [0, 1] }).map (fun r => (r.2.1 0, r.2.1 1))
      = some (0, -1) := by
  constructor
  · simp only [updateAxisPositions]
    norm_num
  · simp only [updateAxisPositions]
    norm_num [Function.update]
